import Mathlib

/-!
# Verification of the showdown.py client core

Shallow embedding, in Lean 4, of the parsing and state-update core of the
showdown.py repository (src/showdown/utils.py, src/showdown/room.py,
src/showdown/client.py), together with theorems settling the specification
claims about it.

Modelling conventions:
* Python strings are Lean `String`s; character-level operations work on
  `String.data : List Char`.  The ASCII fragment of Python's `str.lower`,
  `str.strip` and the regex class `\W` is modelled (all inputs in the
  claims are ASCII).
* Python exceptions are modelled by `Except PyErr`; a fallible operation
  returns `.error e` exactly where the Python code would raise.
* Python dicts (`Room.userlist`, `Battle.players`, `Client.rooms`) are
  modelled as association lists with insertion-order semantics: assigning
  to an existing key replaces the value in place, assigning to a new key
  appends.
-/

/-- Python exception kinds raised by the modelled code paths. -/
inductive PyErr where
  | indexError
  | keyError
  | valueError
  | typeError
  | nameError
  | attributeError
  | exception (msg : String)
deriving DecidableEq, Repr

/-- ASCII model of Python `str.lower` applied per character:
uppercase `A`-`Z` (code points 65-90) map to `a`-`z`, all else unchanged. -/
def pyLower (c : Char) : Char :=
  if 65 ≤ c.toNat ∧ c.toNat ≤ 90 then Char.ofNat (c.toNat + 32) else c

/-- Characters kept by `re.sub(r'(\W|_)', '', ...)` in `name_to_id`
(src/showdown/utils.py line 32): word characters other than underscore,
i.e. ASCII alphanumerics in this model. -/
def isWordKeep (c : Char) : Bool :=
  decide ((65 ≤ c.toNat ∧ c.toNat ≤ 90) ∨ (97 ≤ c.toNat ∧ c.toNat ≤ 122) ∨
    (48 ≤ c.toNat ∧ c.toNat ≤ 57))

/-- ASCII whitespace stripped by Python `str.strip`:
space and the control characters `\t`, `\n`, `\v`, `\f`, `\r`. -/
def isPySpace (c : Char) : Bool :=
  decide (c.toNat = 32 ∨ (9 ≤ c.toNat ∧ c.toNat ≤ 13))

/-- Python `str.strip` on a character list: drop leading and trailing
whitespace. -/
def pyStrip (l : List Char) : List Char :=
  ((l.dropWhile isPySpace).reverse.dropWhile isPySpace).reverse

/-- Python `str.split(sep)` for a one-character separator `sep`:
splits at every occurrence, keeping empty pieces
(so `"".split(sep) == [""]` and `"a|".split("|") == ["a", ""]`). -/
def splitChar (sep : Char) : List Char → List (List Char)
  | [] => [[]]
  | c :: rest =>
    if c = sep then [] :: splitChar sep rest
    else
      match splitChar sep rest with
      | [] => [[c]]
      | h :: t => (c :: h) :: t

/-- Python `str.splitlines` restricted to `\n` separators (the only line
separator occurring in the modelled frames): like splitting on `\n` but
with no trailing empty piece, and `[]` on the empty string. -/
def pySplitlines (s : String) : List (List Char) :=
  if s.data = [] then []
  else
    let parts := splitChar (Char.ofNat 10) s.data
    if parts.getLast? = some [] then parts.dropLast else parts

/-- `name_to_id` (src/showdown/utils.py lines 31-32):
`re.sub(r'(\W|_)', '', input_str.lower()).strip()`. -/
def name_to_id (input_str : String) : String :=
  String.mk (pyStrip ((input_str.data.map pyLower).filter isWordKeep))

/-- The token list `text_input.strip().split('|')` computed by
`parse_text_input` (src/showdown/utils.py line 36). -/
def parseTokens (text_input : String) : List String :=
  (splitChar (Char.ofNat 124) (pyStrip text_input.data)).map String.mk

/-- Python `str.lower` on a whole string (ASCII model). -/
def pyLowerStr (s : String) : String :=
  String.mk (s.data.map pyLower)

/-- `parse_text_input` (src/showdown/utils.py lines 35-43): split the
stripped line on `'|'`; a single-field result is a `rawtext` event whose
params are that field; otherwise the type is the second field lowercased
and the params are `tokens[2:]`. -/
def parse_text_input (text_input : String) : String × List String :=
  let tokens := parseTokens text_input
  if tokens.length = 1 then
    ("rawtext", tokens)
  else
    (pyLowerStr ((tokens.get? 1).getD ""), tokens.drop 2)

/-- One iteration of the block loop in `parse_socket_input`
(src/showdown/utils.py lines 54-63): split the block into lines; if the
first line starts with `'>'` the rest of that line (or `'lobby'` when
empty) is the room id and the remaining lines are the events, otherwise
the room id is `'lobby'` and every line is an event.  An empty block makes
`loaded[0]` raise `IndexError`. -/
def parseBlock (row : String) : Except PyErr (List (String × String)) :=
  match pySplitlines row with
  | [] => .error .indexError
  | first :: rest =>
    match first with
    | '>' :: ridChars =>
      let room_id := if ridChars = [] then "lobby" else String.mk ridChars
      .ok (rest.map (fun e => (room_id, String.mk e)))
    | _ => .ok ((first :: rest).map (fun e => ("lobby", String.mk e)))

/-- `parse_socket_input` (src/showdown/utils.py lines 50-65) after the
leading `'a'` sentinel check and the JSON decode, which are external to
this model: fold the per-block pairs in block order, appending each
block's `(room_id, event)` pairs to the result. -/
def parse_socket_input : List String → Except PyErr (List (String × String))
  | [] => .ok []
  | row :: rest =>
    match parseBlock row with
    | .error e => .error e
    | .ok pairs =>
      match parse_socket_input rest with
      | .error e => .error e
      | .ok restPairs => .ok (pairs ++ restPairs)

deriving instance DecidableEq for Except

/-! ## Character-level lemmas -/

theorem char_toNat_ofNat (n : Nat) (h : n < 55296) : (Char.ofNat n).toNat = n := by
  rw [Char.ofNat, dif_pos (Or.inl h : n.isValidChar)]
  rfl

theorem pyLower_pyLower (c : Char) : pyLower (pyLower c) = pyLower c := by
  unfold pyLower
  by_cases h : 65 ≤ c.toNat ∧ c.toNat ≤ 90
  · rw [if_pos h]
    have hn : (Char.ofNat (c.toNat + 32)).toNat = c.toNat + 32 :=
      char_toNat_ofNat _ (by omega)
    rw [if_neg (by rw [hn]; omega)]
  · rw [if_neg h, if_neg h]

theorem wordKeep_not_space {c : Char} (h : isWordKeep c = true) : isPySpace c = false := by
  simp only [isWordKeep, decide_eq_true_eq] at h
  simp only [isPySpace, decide_eq_false_iff_not]
  omega

theorem splitChar_sep_not_mem (sep : Char) (l : List Char) :
    ∀ piece ∈ splitChar sep l, sep ∉ piece := by
  induction l with
  | nil =>
    intro piece hp
    simp only [splitChar, List.mem_singleton] at hp
    subst hp
    exact List.not_mem_nil _
  | cons c rest ih =>
    intro piece hp
    by_cases hc : c = sep
    · simp only [splitChar, if_pos hc] at hp
      rcases List.mem_cons.mp hp with h1 | h1
      · subst h1; exact List.not_mem_nil _
      · exact ih piece h1
    · simp only [splitChar, if_neg hc] at hp
      rcases hrec : splitChar sep rest with _ | ⟨h, t⟩ <;> rw [hrec] at hp
      · simp only [List.mem_singleton] at hp
        subst hp
        intro hmem
        rcases List.mem_cons.mp hmem with h1 | h1
        · exact hc h1.symm
        · exact List.not_mem_nil _ h1
      · rcases List.mem_cons.mp hp with h1 | h1
        · subst h1
          intro hmem
          rcases List.mem_cons.mp hmem with h2 | h2
          · exact hc h2.symm
          · exact ih h (by rw [hrec]; exact List.mem_cons_self _ _) h2
        · exact ih piece (by rw [hrec]; exact List.mem_cons_of_mem _ h1)

/-! ## List helper lemmas -/

theorem list_map_id_of {f : Char → Char} {l : List Char} (h : ∀ c ∈ l, f c = c) :
    l.map f = l := by
  induction l with
  | nil => rfl
  | cons c rest ih =>
    simp only [List.map_cons, h c (List.mem_cons_self _ _),
      ih (fun d hd => h d (List.mem_cons_of_mem _ hd))]

theorem list_dropWhile_eq_self {p : Char → Bool} {l : List Char}
    (h : ∀ c ∈ l, p c = false) : l.dropWhile p = l := by
  cases l with
  | nil => rfl
  | cons c rest => simp [List.dropWhile, h c (List.mem_cons_self _ _)]

theorem pyStrip_eq_self {l : List Char} (h : ∀ c ∈ l, isPySpace c = false) :
    pyStrip l = l := by
  unfold pyStrip
  rw [list_dropWhile_eq_self h]
  rw [list_dropWhile_eq_self (fun c hc => h c (List.mem_reverse.mp hc))]
  exact List.reverse_reverse l

theorem mem_pyStrip {c : Char} {l : List Char} (h : c ∈ pyStrip l) : c ∈ l := by
  unfold pyStrip at h
  rw [List.mem_reverse] at h
  have h1 := (List.dropWhile_sublist _).mem h
  rw [List.mem_reverse] at h1
  exact (List.dropWhile_sublist _).mem h1

/-! ## Identity normalizer: `name_to_id` -/

theorem name_to_id_idem (x : String) : name_to_id (name_to_id x) = name_to_id x := by
  unfold name_to_id
  congr 1
  have hmem : ∀ c ∈ pyStrip ((x.data.map pyLower).filter isWordKeep),
      pyLower c = c ∧ isWordKeep c = true ∧ isPySpace c = false := by
    intro c hc
    have h1 : c ∈ (x.data.map pyLower).filter isWordKeep := mem_pyStrip hc
    have h2 : isWordKeep c = true := List.of_mem_filter h1
    have h3 : c ∈ x.data.map pyLower := List.mem_of_mem_filter h1
    obtain ⟨c0, _, rfl⟩ := List.mem_map.mp h3
    exact ⟨pyLower_pyLower c0, h2, wordKeep_not_space h2⟩
  set m := pyStrip ((x.data.map pyLower).filter isWordKeep) with hm
  show pyStrip (((String.mk m).data.map pyLower).filter isWordKeep) = m
  have hdata : (String.mk m).data = m := rfl
  rw [hdata]
  rw [list_map_id_of (fun c hc => (hmem c hc).1)]
  rw [List.filter_eq_self.mpr (fun c hc => (hmem c hc).2.1)]
  exact pyStrip_eq_self (fun c hc => (hmem c hc).2.2)

/-- C7: the identity normalizer `name_to_id` is pure and idempotent —
`name_to_id (name_to_id x) = name_to_id x` for every string `x` — and is
case- and decoration-insensitive: `name_to_id "+Zarel" = name_to_id
"zarel" = "zarel"`. -/
theorem c7_name_to_id_idempotent :
    (∀ x : String, name_to_id (name_to_id x) = name_to_id x) ∧
    name_to_id "+Zarel" = name_to_id "zarel" ∧ name_to_id "zarel" = "zarel" :=
  ⟨name_to_id_idem, by decide, by decide⟩

/-! ## Event parser claims -/

/-- C1 counterexample: `parse_text_input "|c:|123|user|hello"` does NOT
return params `["user", "hello"]` (fields from the fourth onward); it
returns `("c:", ["123", "user", "hello"])`. -/
theorem c1_counterexample :
    parse_text_input "|c:|123|user|hello" = ("c:", ["123", "user", "hello"]) ∧
    ¬ (parse_text_input "|c:|123|user|hello").2 = ["user", "hello"] := by
  exact ⟨by decide, by decide⟩

/-- C1 amended: for every raw event line whose token list has more than one
field, `parse_text_input` returns the second field lowercased as the event
type and all fields from the THIRD onward (`tokens[2:]`) as the parameter
list; in particular `"|c:|123|user|hello"` yields type `"c:"` and params
`["123", "user", "hello"]`. -/
theorem c1_params_from_third_field :
    (∀ s : String, 1 < (parseTokens s).length →
      parse_text_input s =
        (pyLowerStr (((parseTokens s).get? 1).getD ""), (parseTokens s).drop 2)) ∧
    parse_text_input "|c:|123|user|hello" = ("c:", ["123", "user", "hello"]) := by
  constructor
  · intro s h
    unfold parse_text_input
    rw [if_neg (by omega)]
  · decide

/-- C1 amended witness: the general statement instantiated at the concrete
line `"|c:|123|user|hello"`. -/
theorem c1_params_from_third_field_witness :
    1 < (parseTokens "|c:|123|user|hello").length ∧
    parse_text_input "|c:|123|user|hello" =
      (pyLowerStr (((parseTokens "|c:|123|user|hello").get? 1).getD ""),
        (parseTokens "|c:|123|user|hello").drop 2) :=
  ⟨by decide, c1_params_from_third_field.1 "|c:|123|user|hello" (by decide)⟩

theorem parseTokens_sep_free (s : String) : ∀ p ∈ parseTokens s, '|' ∉ p.data := by
  intro p hp
  obtain ⟨piece, hpc, rfl⟩ := List.mem_map.mp hp
  exact splitChar_sep_not_mem _ _ piece hpc

/-- C5 counterexample: a parameter field containing the pipe delimiter IS
further split: `"|c:|123|user|hello|world"` produces four separate params
and no param `"hello|world"`. -/
theorem c5_counterexample :
    parse_text_input "|c:|123|user|hello|world" =
      ("c:", ["123", "user", "hello", "world"]) ∧
    ¬ "hello|world" ∈ (parse_text_input "|c:|123|user|hello|world").2 := by
  exact ⟨by decide, by decide⟩

/-- C5 amended: `parse_text_input` splits the whole line at every
occurrence of the pipe delimiter, so every returned parameter is
delimiter-free (a field that contained the delimiter on the wire is
returned as several parameters, and consumers such as the `queryresponse`
handler re-join the tail with `'|'.join`). -/
theorem c5_every_param_delimiter_free (s : String) :
    (parse_text_input s).2.all (fun p => decide ('|' ∉ p.data)) = true := by
  rw [List.all_eq_true]
  intro p hp
  rw [decide_eq_true_eq]
  unfold parse_text_input at hp
  by_cases h : (parseTokens s).length = 1
  · rw [if_pos h] at hp
    exact parseTokens_sep_free s p hp
  · rw [if_neg h] at hp
    exact parseTokens_sep_free s p ((List.drop_sublist 2 _).mem hp)

/-! ## Frame decoder claim -/

theorem parse_socket_input_append (bs1 bs2 : List String) :
    parse_socket_input (bs1 ++ bs2) =
      match parse_socket_input bs1, parse_socket_input bs2 with
      | .ok l1, .ok l2 => .ok (l1 ++ l2)
      | .error e, _ => .error e
      | .ok _, .error e => .error e := by
  induction bs1 with
  | nil =>
    simp only [List.nil_append, parse_socket_input]
    cases parse_socket_input bs2 <;> rfl
  | cons row rest ih =>
    simp only [List.cons_append, parse_socket_input, List.append_eq]
    rw [ih]
    cases hb : parseBlock row with
    | error e => rfl
    | ok p =>
      cases h1 : parse_socket_input rest with
      | error e => rfl
      | ok l1 =>
        cases h2 : parse_socket_input bs2 with
        | error e => rfl
        | ok l2 => simp [List.append_assoc]

/-- C6: frame decoding preserves event order and canonicalizes missing or
empty room markers to `"lobby"`: the two-block frame
`[">room1\nA\nB", ">room2\nC"]` decodes to
`[("room1","A"), ("room1","B"), ("room2","C")]` in that exact order, a
block without the `'>'` marker attributes all its lines to `"lobby"`, a
present marker with an empty id is canonicalized to `"lobby"`, and
decoding a concatenation of block lists is the concatenation of their
decodings (no reordering across blocks). -/
theorem c6_frame_decode_order :
    parse_socket_input [">room1\nA\nB", ">room2\nC"] =
      .ok [("room1", "A"), ("room1", "B"), ("room2", "C")] ∧
    parse_socket_input ["X\nY"] = .ok [("lobby", "X"), ("lobby", "Y")] ∧
    parse_socket_input [">\nC"] = .ok [("lobby", "C")] ∧
    (∀ bs1 bs2 : List String,
      parse_socket_input (bs1 ++ bs2) =
        match parse_socket_input bs1, parse_socket_input bs2 with
        | .ok l1, .ok l2 => .ok (l1 ++ l2)
        | .error e, _ => .error e
        | .ok _, .error e => .error e) :=
  ⟨by decide, by decide, by decide, parse_socket_input_append⟩

/-! ## Users, rooms and battles (src/showdown/room.py) -/

/-- Modelled from the spec: `user.py` is not under src/, so the `User`
record is modelled from the spec's data model — a normalized identifier
plus the raw display name (which may carry rank/status decoration). -/
structure UserM where
  name : String
  id : String
deriving DecidableEq, Repr

/-- Modelled from the spec: `User(user_str, ...)` keeps the raw string as
the display name and derives the id with the identity normalizer. -/
def mkUser (user_str : String) : UserM :=
  { name := user_str, id := name_to_id user_str }

/-- Modelled from the spec: `User.name_matches` (used by the `win`
handler, `user.py` not under src/) compares the announced name against the
current raw display name, not the normalized id (spec section 4.4 and the
design note on battle outcome matching). -/
def UserM.name_matches (u : UserM) (n : String) : Bool :=
  decide (u.name = n)

/-- Python dict assignment `d[k] = v` on an insertion-ordered association
list: replace in place if the key exists, else append. -/
def dictInsert {α : Type} (k : String) (v : α) :
    List (String × α) → List (String × α)
  | [] => [(k, v)]
  | (k0, v0) :: rest =>
    if k0 = k then (k0, v) :: rest else (k0, v0) :: dictInsert k v rest

/-- Python `d.pop(k, None)`: drop the entry with key `k`, if any. -/
def dictPop {α : Type} (k : String) :
    List (String × α) → List (String × α)
  | [] => []
  | (k0, v0) :: rest =>
    if k0 = k then rest else (k0, v0) :: dictPop k rest

/-- Python `d[k]` as an optional lookup (`none` models `KeyError`). -/
def dictGet {α : Type} (k : String) : List (String × α) → Option α
  | [] => none
  | (k0, v0) :: rest => if k0 = k then some v0 else dictGet k rest

/-- The mutable state of a `Room` (src/showdown/room.py lines 4-10)
relevant to the claims: the lazily-set title and the occupancy map from
user id to user.  (The bounded log and the client back-pointer carry no
claim-relevant state.) -/
structure RoomState where
  title : Option String := none
  userlist : List (String × UserM) := []
deriving DecidableEq, Repr

/-- A freshly constructed room: no title, empty occupancy map. -/
def initRoom : RoomState := {}

/-- `Room.add_user` (src/showdown/room.py lines 29-31). -/
def Room.add_user (r : RoomState) (user_str : String) : RoomState :=
  let new_user := mkUser user_str
  { r with userlist := dictInsert new_user.id new_user r.userlist }

/-- `Room.remove_user` (src/showdown/room.py lines 33-34). -/
def Room.remove_user (r : RoomState) (user_id : String) : RoomState :=
  { r with userlist := dictPop user_id r.userlist }

/-- `Room.update` (src/showdown/room.py lines 36-61): the `title` check
runs first, then the `users`/`n`/`l`/`j` chain; missing positional params
raise `IndexError`, a failed two-element unpack in `n` raises
`ValueError`. -/
def Room.update (r : RoomState) (inp_type : String) (params : List String) :
    Except PyErr RoomState :=
  match (if inp_type = "title" then
      match params.get? 0 with
      | none => .error PyErr.indexError
      | some t => .ok { r with title := some t }
    else .ok r : Except PyErr RoomState) with
  | .error e => .error e
  | .ok r1 =>
    if inp_type = "users" then
      match params.get? 0 with
      | none => .error .indexError
      | some roster =>
        .ok ((((splitChar ',' roster.data).map String.mk).drop 1).foldl
          Room.add_user r1)
    else if inp_type = "n" then
      match params with
      | [user_str, old_id] => .ok (Room.add_user (Room.remove_user r1 old_id) user_str)
      | _ => .error .valueError
    else if inp_type = "l" then
      match params.get? 0 with
      | none => .error .indexError
      | some p => .ok (Room.remove_user r1 (name_to_id p))
    else if inp_type = "j" then
      match params.get? 0 with
      | none => .error .indexError
      | some p => .ok (Room.add_user r1 p)
    else .ok r1

/-- Folding a sequence of parsed events into a room, aborting at the first
raised exception (each event reaches `Room.update` separately in the
source, via `Room.add_content`). -/
def Room.applyAll (r : RoomState) :
    List (String × List String) → Except PyErr RoomState
  | [] => .ok r
  | (ty, ps) :: rest =>
    match Room.update r ty ps with
    | .error e => .error e
    | .ok r1 => Room.applyAll r1 rest

/-- The mutable state of a `Battle` (src/showdown/room.py lines 79-91):
the inherited room state plus rules, the two player slots, the rated flag,
the tier, and the outcome fields. -/
structure Battle where
  room : RoomState := {}
  rules : List String := []
  players : List (String × Option UserM) := [("p1", none), ("p2", none)]
  rated : Bool := false
  ended : Bool := false
  tier : Option String := none
  winner : Option UserM := none
  loser : Option UserM := none
  winner_id : Option String := none
  loser_id : Option String := none
deriving DecidableEq, Repr

/-- `Battle.__init__` (src/showdown/room.py lines 80-91): both player
slots present but unassigned, outcome fields unset. -/
def initBattle : Battle := {}

/-- `Battle.update` (src/showdown/room.py lines 93-116): run
`Room.update` first, then the battle-specific chain.  In the `win` branch
the announced name is matched against `players['p1']` then
`players['p2']`; `ended` is set to `True` unconditionally at the end of
the branch, whether or not a slot matched.  Calling `name_matches` on an
unassigned (`None`) slot raises `AttributeError`. -/
def Battle.update (b : Battle) (inp_type : String) (params : List String) :
    Except PyErr Battle :=
  match Room.update b.room inp_type params with
  | .error e => .error e
  | .ok r =>
    let b1 := { b with room := r }
    if inp_type = "player" then
      match params.get? 0, params.get? 1 with
      | some player_id, some nm =>
        .ok { b1 with players := dictInsert player_id (some (mkUser nm)) b1.players }
      | _, _ => .error .indexError
    else if inp_type = "rated" then .ok { b1 with rated := true }
    else if inp_type = "tier" then
      match params.get? 0 with
      | none => .error .indexError
      | some t => .ok { b1 with tier := some (name_to_id t) }
    else if inp_type = "rule" then
      match params.get? 0 with
      | none => .error .indexError
      | some ru => .ok { b1 with rules := b1.rules ++ [ru] }
    else if inp_type = "win" then
      match params.get? 0 with
      | none => .error .indexError
      | some winner_name =>
        match dictGet "p1" b1.players with
        | none => .error .keyError
        | some p1v =>
          match p1v with
          | none => .error .attributeError
          | some u1 =>
            if u1.name_matches winner_name then
              match dictGet "p2" b1.players with
              | none => .error .keyError
              | some p2v =>
                .ok { b1 with
                        winner := some u1, winner_id := some "p1",
                        loser := p2v, loser_id := some "p2", ended := true }
            else
              match dictGet "p2" b1.players with
              | none => .error .keyError
              | some p2v =>
                match p2v with
                | none => .error .attributeError
                | some u2 =>
                  if u2.name_matches winner_name then
                    .ok { b1 with
                            winner := some u2, winner_id := some "p2",
                            loser := some u1, loser_id := some "p1", ended := true }
                  else .ok { b1 with ended := true }
    else .ok b1

/-- Folding a sequence of parsed events into a battle, aborting at the
first raised exception. -/
def Battle.applyAll (b : Battle) :
    List (String × List String) → Except PyErr Battle
  | [] => .ok b
  | (ty, ps) :: rest =>
    match Battle.update b ty ps with
    | .error e => .error e
    | .ok b1 => Battle.applyAll b1 rest

/-- The terminal outcome fields of a battle, bundled. -/
def Battle.outcome (b : Battle) :
    Bool × Option UserM × Option UserM × Option String × Option String :=
  (b.ended, b.winner, b.loser, b.winner_id, b.loser_id)

/-- All outcome fields in their initial, unset state. -/
def Battle.outcomeUnset (b : Battle) : Prop :=
  b.ended = false ∧ b.winner = none ∧ b.loser = none ∧
    b.winner_id = none ∧ b.loser_id = none

/-! ## Battle outcome lemmas -/

theorem battle_update_outcome_preserved (b : Battle) (ty : String)
    (ps : List String) (b' : Battle) (hty : ty ≠ "win")
    (hup : Battle.update b ty ps = .ok b') :
    Battle.outcome b' = Battle.outcome b := by
  unfold Battle.update at hup
  repeat' split at hup
  all_goals cases hup
  all_goals rfl

theorem battle_update_win_ended (b : Battle) (ps : List String) (b' : Battle)
    (hup : Battle.update b "win" ps = .ok b') : b'.ended = true := by
  unfold Battle.update at hup
  simp only [String.reduceEq, reduceIte] at hup
  repeat' split at hup
  all_goals cases hup
  all_goals rfl

theorem battle_update_ended_mono (b : Battle) (ty : String)
    (ps : List String) (b' : Battle)
    (hup : Battle.update b ty ps = .ok b') (hend : b.ended = true) :
    b'.ended = true := by
  by_cases hw : ty = "win"
  · subst hw
    exact battle_update_win_ended b ps b' hup
  · have h := battle_update_outcome_preserved b ty ps b' hw hup
    unfold Battle.outcome at h
    rw [show b'.ended = b.ended from congrArg Prod.fst h, hend]

theorem battle_applyAll_outcome_preserved (evs : List (String × List String)) :
    ∀ b b' : Battle, (∀ e ∈ evs, e.1 ≠ "win") →
      Battle.applyAll b evs = .ok b' → Battle.outcome b' = Battle.outcome b := by
  induction evs with
  | nil =>
    intro b b' _ hup
    cases hup
    rfl
  | cons e rest ih =>
    intro b b' hno hup
    obtain ⟨ty, ps⟩ := e
    unfold Battle.applyAll at hup
    cases hu : Battle.update b ty ps with
    | error e2 => rw [hu] at hup; cases hup
    | ok b1 =>
      rw [hu] at hup
      have h1 := battle_update_outcome_preserved b ty ps b1
        (hno (ty, ps) (List.mem_cons_self _ _)) hu
      have h2 := ih b1 b' (fun e2 he => hno e2 (List.mem_cons_of_mem _ he)) hup
      rw [h2, h1]

theorem battle_applyAll_ended_mono (evs : List (String × List String)) :
    ∀ b b' : Battle, Battle.applyAll b evs = .ok b' →
      b.ended = true → b'.ended = true := by
  induction evs with
  | nil =>
    intro b b' hup hend
    cases hup
    exact hend
  | cons e rest ih =>
    intro b b' hup hend
    obtain ⟨ty, ps⟩ := e
    unfold Battle.applyAll at hup
    cases hu : Battle.update b ty ps with
    | error e2 => rw [hu] at hup; cases hup
    | ok b1 =>
      rw [hu] at hup
      exact ih b1 b' hup (battle_update_ended_mono b ty ps b1 hu hend)

/-- A battle whose two player slots hold the users `Ash` and `Gary`
(as produced by the corresponding `player` events). -/
def battleAshGary : Battle :=
  { initBattle with
      players := [("p1", some (mkUser "Ash")), ("p2", some (mkUser "Gary"))] }

/-- C2 counterexample: applying a `win` event whose announced name
(`"Misty"`) matches neither player does NOT leave `ended` false — the
code sets `ended := true` unconditionally at the end of the `win` branch,
while winner/loser stay unset and no error is raised. -/
theorem c2_counterexample :
    (Battle.update battleAshGary "win" ["Misty"]).map Battle.outcome =
      .ok (true, none, none, none, none) ∧
    ¬ (Battle.update battleAshGary "win" ["Misty"]).map (fun b => b.ended) =
      .ok false :=
  ⟨by decide, by decide⟩

/-- C2 amended: for every Battle with both player slots assigned, applying
a `win` event whose announced name matches neither player's display name
leaves the winner/loser fields and slot-tokens unchanged (so still unset
if they were unset) and raises no error, but sets the `ended` flag to
true. -/
theorem c2_unmatched_win_sets_ended_only (b : Battle) (u1 u2 : UserM)
    (nm : String)
    (h1 : dictGet "p1" b.players = some (some u1))
    (h2 : dictGet "p2" b.players = some (some u2))
    (hm1 : u1.name_matches nm = false)
    (hm2 : u2.name_matches nm = false) :
    Battle.update b "win" [nm] = .ok { b with ended := true } := by
  simp [Battle.update, Room.update, h1, h2, hm1, hm2]

/-- C2 amended witness: the general statement instantiated on a battle
with players `Ash` and `Gary` and the unmatched announced name `Misty`. -/
theorem c2_unmatched_win_sets_ended_only_witness :
    dictGet "p1" battleAshGary.players = some (some (mkUser "Ash")) ∧
    dictGet "p2" battleAshGary.players = some (some (mkUser "Gary")) ∧
    (mkUser "Ash").name_matches "Misty" = false ∧
    (mkUser "Gary").name_matches "Misty" = false ∧
    Battle.update battleAshGary "win" ["Misty"] =
      .ok { battleAshGary with ended := true } :=
  ⟨by decide, by decide, by decide, by decide,
    c2_unmatched_win_sets_ended_only battleAshGary (mkUser "Ash")
      (mkUser "Gary") "Misty" (by decide) (by decide) (by decide) (by decide)⟩

/-- C3 counterexample: outcome fields, once set, CAN be overwritten by a
later `win` event: after `win Ash` the winner slot-token is `p1`, and a
subsequent `win Gary` overwrites it to `p2`. -/
theorem c3_counterexample :
    (Battle.applyAll initBattle [("player", ["p1", "Ash"]),
        ("player", ["p2", "Gary"]), ("win", ["Ash"])]).map
      (fun b => b.winner_id) = .ok (some "p1") ∧
    (Battle.applyAll initBattle [("player", ["p1", "Ash"]),
        ("player", ["p2", "Gary"]), ("win", ["Ash"]),
        ("win", ["Gary"])]).map (fun b => b.winner_id) = .ok (some "p2") ∧
    ¬ (Battle.applyAll initBattle [("player", ["p1", "Ash"]),
        ("player", ["p2", "Gary"]), ("win", ["Ash"]),
        ("win", ["Gary"])]).map (fun b => b.winner_id) = .ok (some "p1") :=
  ⟨by decide, by decide, by decide⟩

/-- C3 amended: the outcome fields (ended flag, winner, loser, winner
slot-token, loser slot-token) are unset until a `win` event is observed —
events other than `win` never modify them — and the ended flag, once set,
is never unset; however a later `win` event may overwrite the
winner/loser fields, so the battle does not transition to "ended" exactly
once in the sense of outcome immutability. -/
theorem c3_outcome_set_only_by_win :
    (∀ (b : Battle) (ty : String) (ps : List String) (b' : Battle),
      ty ≠ "win" → Battle.update b ty ps = .ok b' →
        Battle.outcome b' = Battle.outcome b) ∧
    (∀ (evs : List (String × List String)) (b' : Battle),
      (∀ e ∈ evs, e.1 ≠ "win") → Battle.applyAll initBattle evs = .ok b' →
        Battle.outcomeUnset b') ∧
    (∀ (b : Battle) (evs : List (String × List String)) (b' : Battle),
      Battle.applyAll b evs = .ok b' → b.ended = true → b'.ended = true) := by
  refine ⟨battle_update_outcome_preserved, ?_, ?_⟩
  · intro evs b' hno hup
    have h := battle_applyAll_outcome_preserved evs initBattle b' hno hup
    unfold Battle.outcome at h
    exact ⟨congrArg (fun t => t.1) h, congrArg (fun t => t.2.1) h,
      congrArg (fun t => t.2.2.1) h, congrArg (fun t => t.2.2.2.1) h,
      congrArg (fun t => t.2.2.2.2) h⟩
  · intro b evs b' hup hend
    exact battle_applyAll_ended_mono evs b b' hup hend

/-- C3 amended witness: the first conjunct instantiated at a concrete
non-`win` event (`rated`), the second at a concrete `win`-free event
sequence, the third at a concrete already-ended battle. -/
theorem c3_outcome_set_only_by_win_witness :
    Battle.outcome { initBattle with rated := true } =
      Battle.outcome initBattle ∧
    Battle.outcomeUnset { initBattle with rated := true } ∧
    ({ initBattle with ended := true } : Battle).ended = true :=
  ⟨c3_outcome_set_only_by_win.1 initBattle "rated" []
      { initBattle with rated := true } (by decide) (by decide),
    c3_outcome_set_only_by_win.2.1 [("rated", [])]
      { initBattle with rated := true } (by decide) (by decide),
    c3_outcome_set_only_by_win.2.2 { initBattle with ended := true } []
      { initBattle with ended := true } (by decide) (by decide)⟩

/-! ## Room occupancy claim -/

/-- C9 counterexample: the event sequence
`("users", "5,user1,user2")`, `("l", "user1")`, `("j", "User1")` leaves
TWO occupants, not exactly one: `user2` from the roster was never
removed. -/
theorem c9_counterexample :
    (Room.applyAll initRoom [("users", ["5,user1,user2"]), ("l", ["user1"]),
        ("j", ["User1"])]).map (fun r => r.userlist.length) = .ok 2 ∧
    ¬ (Room.applyAll initRoom [("users", ["5,user1,user2"]), ("l", ["user1"]),
        ("j", ["User1"])]).map (fun r => r.userlist.length) = .ok 1 :=
  ⟨by decide, by decide⟩

/-- C9 amended: starting from a Room with an empty occupancy map, applying
`("users", "5,user1,user2")` then `("l", "user1")` then `("j", "User1")`
leaves exactly two occupants: `user2` kept from the roster, and a rejoined
occupant whose normalized id is `user1` and whose display name is the
decorated string `User1`; the `users` event drops the leading count token
of the comma-joined roster and adds a user for each remaining token. -/
theorem c9_room_fold :
    (Room.applyAll initRoom [("users", ["5,user1,user2"]), ("l", ["user1"]),
        ("j", ["User1"])]).map (fun r => r.userlist) =
      .ok [("user2", mkUser "user2"), ("user1", mkUser "User1")] ∧
    (mkUser "User1").id = "user1" ∧ (mkUser "User1").name = "User1" ∧
    (Room.update initRoom "users" ["5,user1,user2"]).map
        (fun r => r.userlist.map Prod.fst) = .ok ["user1", "user2"] :=
  ⟨by decide, by decide, by decide, by decide⟩

/-! ## Outbound message content policy (src/showdown/utils.py lines 19-24,
src/showdown/client.py lines 407-431) -/

/-- The parameter list of `clean_message_content` as defined at
src/showdown/utils.py line 19: a single positional parameter `content`
and no `strict` parameter. -/
def clean_message_content_param_names : List String := ["content"]

/-- Whether `utils.py` imports the `warnings` module.  It does not, so the
reference to `warnings.warn` inside `clean_message_content` is an unbound
name. -/
def utils_imports_warnings : Bool := false

/-- The body of `clean_message_content` (src/showdown/utils.py lines
19-24): content longer than 300 characters is truncated after a
`warnings.warn` call — which raises `NameError`, since `warnings` is
never imported in utils.py. -/
def clean_message_content (content : String) : Except PyErr String :=
  if 300 < content.data.length then
    if utils_imports_warnings then .ok (String.mk (content.data.take 300))
    else .error .nameError
  else .ok content

/-- Python call semantics for a call to `clean_message_content` carrying
keyword arguments: binding a keyword argument whose name is not in the
parameter list raises `TypeError` before the body runs. -/
def call_clean_message_content (content : String) (kwarg_names : List String) :
    Except PyErr String :=
  if kwarg_names.all (fun k => clean_message_content_param_names.contains k) then
    clean_message_content content
  else .error .typeError

/-- `Client.private_message` (src/showdown/client.py lines 407-431): call
`utils.clean_message_content(content, strict=strict)` — passing the
keyword `strict` — then enqueue `'|/msg {user_id}, {content}'`.  Returns
the enqueued command string on success. -/
def private_message (user_name content : String) (strict : Bool) :
    Except PyErr String :=
  match call_clean_message_content content ["strict"] with
  | .error e => .error e
  | .ok c => .ok ("|/msg " ++ name_to_id user_name ++ ", " ++ c)

/-- C4: `private_message` raises `TypeError` on EVERY call — strict or
not, short or long content — because `clean_message_content` does not
accept the `strict` keyword that `private_message` passes; nothing is
ever enqueued, so neither the claimed strict-mode rejection of long
content nor the claimed non-strict truncate-and-send can occur.  (Even
with the keyword removed, `clean_message_content` never raises for long
content and would hit an unbound `warnings` name instead.) -/
theorem c4_private_message_always_type_error :
    private_message "friend" "hello" false = .error .typeError ∧
    private_message "friend" "hello" true = .error .typeError ∧
    (∀ (u content : String) (st : Bool),
      private_message u content st = .error .typeError) :=
  ⟨by decide, by decide, fun _ _ _ => rfl⟩

/-! ## Login configuration errors (src/showdown/client.py lines 200-209
and 245-257) -/

/-- The guard chain of `Client.login` (src/showdown/client.py lines
245-257): raise if no challenge-token pair has been received
(`challengekeyid` unset or empty, i.e. falsy), then if no username is
configured, then if no password is configured; otherwise proceed to the
external credential exchange. -/
def login_gate (challengekeyid : Option String) (name password : String) :
    Except PyErr Unit :=
  if challengekeyid = none ∨ challengekeyid = some "" then
    .error (.exception "Cannot login, challstr has not been received yet")
  else if name = "" then
    .error (.exception "Cannot login, no username has been specified")
  else if password = "" then
    .error (.exception "Cannot login, no password has been specified")
  else .ok ()

/-- What the `challstr` branch of `Client.receiver` decides to do next. -/
inductive ChallstrAction where
  | loginCall
  | noAction
deriving DecidableEq, Repr

/-- The `challstr` branch of `Client.receiver` (src/showdown/client.py
lines 200-209): with a name, a password and autologin, call `login`;
with autologin but a missing name or password, raise immediately;
otherwise do nothing. -/
def challstr_step (name password : String) (autologin : Bool) :
    Except PyErr ChallstrAction :=
  if name ≠ "" ∧ password ≠ "" ∧ autologin = true then .ok .loginCall
  else if autologin = true then
    .error (.exception "Cannot login without username and password")
  else .ok .noAction

/-- C8: configuration errors are raised synchronously at the call site:
`login` before any challenge-token was received raises, `login` without a
configured name raises, `login` without a configured password raises, and
a `challstr` event received while autologin is requested without a full
name/password pair raises immediately. -/
theorem c8_config_errors_raise :
    (∀ name password : String, login_gate none name password =
      .error (.exception "Cannot login, challstr has not been received yet")) ∧
    (∀ (ck : Option String) (password : String),
      ¬(ck = none ∨ ck = some "") → login_gate ck "" password =
        .error (.exception "Cannot login, no username has been specified")) ∧
    (∀ (ck : Option String) (name : String),
      ¬(ck = none ∨ ck = some "") → name ≠ "" → login_gate ck name "" =
        .error (.exception "Cannot login, no password has been specified")) ∧
    (∀ name password : String, name = "" ∨ password = "" →
      challstr_step name password true =
        .error (.exception "Cannot login without username and password")) := by
  refine ⟨?_, ?_, ?_, ?_⟩
  · intro name password
    unfold login_gate
    rw [if_pos (Or.inl rfl)]
  · intro ck password hck
    unfold login_gate
    rw [if_neg hck, if_pos rfl]
  · intro ck name hck hname
    unfold login_gate
    rw [if_neg hck, if_neg hname, if_pos rfl]
  · intro name password h
    unfold challstr_step
    rw [if_neg (by tauto), if_pos rfl]

/-- C8 witness: the four conjuncts instantiated at concrete
configurations (token unset; token `"4"` with empty name; token `"4"`
with name `"ash"` and empty password; autologin with empty password). -/
theorem c8_config_errors_raise_witness :
    login_gate none "ash" "pw" =
      .error (.exception "Cannot login, challstr has not been received yet") ∧
    login_gate (some "4") "" "pw" =
      .error (.exception "Cannot login, no username has been specified") ∧
    login_gate (some "4") "ash" "" =
      .error (.exception "Cannot login, no password has been specified") ∧
    challstr_step "ash" "" true =
      .error (.exception "Cannot login without username and password") :=
  ⟨c8_config_errors_raise.1 "ash" "pw",
    c8_config_errors_raise.2.1 (some "4") "pw" (by decide),
    c8_config_errors_raise.2.2.1 (some "4") "ash" (by decide) (by decide),
    c8_config_errors_raise.2.2.2 "ash" "" (Or.inr rfl)⟩

/-! ## Room deinit handling (src/showdown/client.py lines 235-237) -/

/-- The `deinit` branch of `Client.receiver` (src/showdown/client.py
lines 235-237): if the announced room id is a current key of the session
room mapping, pop it and invoke the room-deinit hook on the popped room;
otherwise do nothing.  Returns the resulting mapping and whether the
hook was invoked. -/
def handle_deinit {α : Type} (rooms : List (String × α)) (room_id : String) :
    List (String × α) × Bool :=
  if (dictGet room_id rooms).isSome then (dictPop room_id rooms, true)
  else (rooms, false)

/-- C10: a `deinit` event for a room id that is not a key of the session
room mapping is a no-op: the mapping is unchanged, no error is raised,
and the room-deinit hook is not invoked. -/
theorem c10_deinit_unknown_room_noop {α : Type}
    (rooms : List (String × α)) (room_id : String)
    (h : dictGet room_id rooms = none) :
    handle_deinit rooms room_id = (rooms, false) := by
  unfold handle_deinit
  rw [h]
  rfl

/-- C10 witness: a mapping holding only `lobby`, receiving `deinit` for
the unknown room id `battle-x`. -/
theorem c10_deinit_unknown_room_noop_witness :
    handle_deinit [("lobby", 0)] "battle-x" = ([("lobby", 0)], false) :=
  c10_deinit_unknown_room_noop [("lobby", 0)] "battle-x" (by decide)
